import Mathlib

/-!
Verification of the quiz session state machine in `static/js/quiz.js`
(repository Abhyasam).  The mutable fields of the `QuizApp` class are
embedded as a Lean structure; each method that mutates quiz state is
embedded as a pure state-transforming function mirroring the method body
line by line.  DOM-only effects (screen switching, re-rendering, modal
visibility) have no counterpart in the state, except for the `warning`
CSS class on the timer display, which the spec treats as the low-time
warning flag, and the `setInterval`/`clearInterval` bookkeeping, which is
modelled by `timerRef` (is `this.timer` non-null) and `liveIntervals`
(how many interval callbacks are currently scheduled by the runtime —
`clearInterval` retires one, a `setInterval` whose handle is overwritten
without being cleared keeps firing).
-/

namespace Abhyasam

/-- A question record as loaded from `questions.json`
(`{question, options, answer}`, see the fallback literal in
`loadQuestions`, quiz.js lines 71-77). -/
structure Question where
  question : String
  options : List String
  answer : Nat
deriving DecidableEq

/-- The mutable state of `QuizApp` (constructor, quiz.js lines 3-12),
plus the two pieces of ambient runtime/DOM state the spec talks about:
the set of live interval callbacks and the one-way `warning` CSS class
(quiz.js line 149). `userAnswers` is a JS object used as a partial map,
`bookmarkedQuestions` a `Set`, `timeRemaining` a JS number counting
seconds, `startTime`/`endTime` are `Date` values (modelled as integer
timestamps). -/
structure QuizState where
  questions : List Question
  currentQuestionIndex : Nat
  userAnswers : Nat → Option Nat
  bookmarkedQuestions : List Nat
  score : Nat
  timerRef : Bool
  liveIntervals : Nat
  timeRemaining : Int
  startTime : Option Int
  endTime : Option Int
  warning : Bool

/-- State set up by the `QuizApp` constructor (quiz.js lines 3-12):
no questions yet, index 0, empty answers and bookmarks, score 0,
`timer = null`, `timeRemaining = 90 * 60`, no timestamps. -/
def mkQuizApp : QuizState where
  questions := []
  currentQuestionIndex := 0
  userAnswers := fun _ => none
  bookmarkedQuestions := []
  score := 0
  timerRef := false
  liveIntervals := 0
  timeRemaining := 90 * 60
  startTime := none
  endTime := none
  warning := false

/-- The placeholder question substituted on load failure
(quiz.js lines 71-77). -/
def placeholderQuestion : Question :=
  { question := "Sample question"
    options := ["Option A", "Option B", "Option C", "Option D"]
    answer := 0 }

/-- `loadQuestions` (quiz.js lines 64-80).  The argument is the outcome
of `fetch('/static/questions.json')` followed by `response.json()`:
`none` when either step throws (network failure or malformed JSON), in
which case the catch block installs the single placeholder question;
`some qs` when a JSON array of question records was parsed, in which
case it is assigned to `this.questions` verbatim. -/
def loadQuestions : Option (List Question) → List Question
  | some qs => qs
  | none => [placeholderQuestion]

/-- `this.userAnswers[k] = v` on a JS object used as a map: overwrite on
re-answer (the option click handler, quiz.js line 176). -/
def setAns (m : Nat → Option Nat) (k v : Nat) : Nat → Option Nat :=
  fun i => if i = k then some v else m i

/-- The option click handler registered in `showQuestion`
(quiz.js lines 175-181): records the chosen option for the current
question, overwriting any previous choice; the remaining calls
(`showQuestion`, `updateProgress`, ...) only re-render. -/
def selectOption (s : QuizState) (k v : Nat) : QuizState :=
  { s with userAnswers := setAns s.userAnswers k v }

/-- `previousQuestion` (quiz.js lines 187-194): decrement the index only
when it is positive; the rest is re-rendering. -/
def previousQuestion (s : QuizState) : QuizState :=
  if 0 < s.currentQuestionIndex then
    { s with currentQuestionIndex := s.currentQuestionIndex - 1 }
  else s

/-- `nextQuestion` (quiz.js lines 196-203): increment the index only
while strictly below `questions.length - 1`. -/
def nextQuestion (s : QuizState) : QuizState :=
  if s.currentQuestionIndex < s.questions.length - 1 then
    { s with currentQuestionIndex := s.currentQuestionIndex + 1 }
  else s

/-- `goToQuestion` (quiz.js lines 272-277): assigns
`this.currentQuestionIndex = index` unconditionally — the body contains
no bounds check; everything else in the method re-renders. -/
def goToQuestion (s : QuizState) (i : Nat) : QuizState :=
  { s with currentQuestionIndex := i }

/-- `toggleBookmark` (quiz.js lines 205-214): flips membership of the
current index in the bookmark set. -/
def toggleBookmark (s : QuizState) : QuizState :=
  if s.currentQuestionIndex ∈ s.bookmarkedQuestions then
    { s with bookmarkedQuestions := s.bookmarkedQuestions.erase s.currentQuestionIndex }
  else
    { s with bookmarkedQuestions := s.currentQuestionIndex :: s.bookmarkedQuestions }

/-- `startTimer` (quiz.js lines 141-155): `this.timer = setInterval(...)`
creates a fresh interval callback and stores its handle.  If a previous
interval was never cleared it keeps firing (its handle is merely
overwritten), hence `liveIntervals` is incremented, not set to 1. -/
def startTimer (s : QuizState) : QuizState :=
  { s with timerRef := true, liveIntervals := s.liveIntervals + 1 }

/-- `stopTimer` (quiz.js lines 157-162): clears the stored interval, if
any, and nulls the handle.  Only the interval referenced by `this.timer`
is retired. -/
def stopTimer (s : QuizState) : QuizState :=
  if s.timerRef then
    { s with timerRef := false, liveIntervals := s.liveIntervals - 1 }
  else s

/-- `startQuiz` (quiz.js lines 132-139): `startTime = new Date()` then
`startTimer()`; the remaining calls render the quiz screen. -/
def startQuiz (s : QuizState) (t0 : Int) : QuizState :=
  startTimer { s with startTime := some t0 }

/-- `calculateScore` (quiz.js lines 307-314): reset the score and count,
over `questions.forEach((question, index) => ...)`, the indices whose
recorded answer strictly equals the question's correct index (an
unanswered index compares `undefined === answer`, i.e. false). -/
def calculateScore (ans : Nat → Option Nat) (qs : List Question) : Nat :=
  qs.enum.countP fun p => ans p.1 == some p.2.answer

/-- `submitQuiz` (quiz.js lines 292-298), wired to the confirm-submit
button: `endTime = new Date()`, `calculateScore()`, `stopTimer()`; the
trailing `hideSubmitModal()` and `showResults()` only touch the DOM. -/
def submitQuiz (s : QuizState) (t : Int) : QuizState :=
  stopTimer { s with endTime := some t,
                     score := calculateScore s.userAnswers s.questions }

/-- `autoSubmitQuiz` (quiz.js lines 300-305), invoked by the timer tick
when the countdown reaches zero: `endTime = new Date()`,
`calculateScore()`, `stopTimer()`; the trailing `showResults()` only
touches the DOM. -/
def autoSubmitQuiz (s : QuizState) (t : Int) : QuizState :=
  stopTimer { s with endTime := some t,
                     score := calculateScore s.userAnswers s.questions }

/-- The body of one interval callback created by `startTimer`
(quiz.js lines 143-154): decrement `timeRemaining`, add the (never
removed) `warning` class when the new value is in (0, 300], and call
`autoSubmitQuiz` when it is ≤ 0.  `t` is the wall-clock time the tick
fires at, consumed by `new Date()` inside `autoSubmitQuiz`. -/
def tickBody (s : QuizState) (t : Int) : QuizState :=
  if s.timeRemaining - 1 ≤ 0 then
    autoSubmitQuiz
      { s with timeRemaining := s.timeRemaining - 1,
               warning := if s.timeRemaining - 1 ≤ 300 ∧ 0 < s.timeRemaining - 1
                          then true else s.warning } t
  else
    { s with timeRemaining := s.timeRemaining - 1,
             warning := if s.timeRemaining - 1 ≤ 300 ∧ 0 < s.timeRemaining - 1
                        then true else s.warning }

/-- `restartQuiz` (quiz.js lines 365-374): re-initialises every session
field and shows the start screen.  Note what it does NOT touch: the
interval bookkeeping (`stopTimer` is never called here) and the
`warning` class on the timer display. -/
def restartQuiz (s : QuizState) : QuizState :=
  { s with currentQuestionIndex := 0
           userAnswers := fun _ => none
           bookmarkedQuestions := []
           score := 0
           timeRemaining := 90 * 60
           startTime := none
           endTime := none }

/-- The discrete events that drive a session once it is in progress:
one firing of an interval callback, the user-intent handlers wired in
`setupEventListeners`, and the two submission entry points. -/
inductive Event where
  | tick (t : Int)
  | select (k v : Nat)
  | prev
  | next
  | goTo (i : Nat)
  | mark
  | subm (t : Int)
  | autoSub (t : Int)

/-- Apply one event.  A tick can only fire while at least one interval
callback is scheduled (`setInterval` semantics — after `clearInterval`
nothing fires), otherwise it mirrors the callback body. -/
def applyEvent (s : QuizState) : Event → QuizState
  | Event.tick t => if s.liveIntervals = 0 then s else tickBody s t
  | Event.select k v => selectOption s k v
  | Event.prev => previousQuestion s
  | Event.next => nextQuestion s
  | Event.goTo i => goToQuestion s i
  | Event.mark => toggleBookmark s
  | Event.subm t => submitQuiz s t
  | Event.autoSub t => autoSubmitQuiz s t

/-- Run a sequence of events. -/
def runSession (s : QuizState) (evts : List Event) : QuizState :=
  evts.foldl applyEvent s

/-- The state at the start of an attempt: constructed app holding the
loaded question list, then `startQuiz` at time `t0`. -/
def initSession (qs : List Question) (t0 : Int) : QuizState :=
  startQuiz { mkQuizApp with questions := qs } t0

/-- A sequence of `selectOption` calls, applied in order. -/
def applySelections (s : QuizState) (sels : List (Nat × Nat)) : QuizState :=
  sels.foldl (fun a p => selectOption a p.1 p.2) s

/-- The last recorded choice for question index `i` in a selection
sequence: later entries take precedence; `none` when `i` was never
answered. -/
def lastChoice : List (Nat × Nat) → Nat → Option Nat
  | [], _ => none
  | p :: rest, i =>
    match lastChoice rest i with
    | some v => some v
    | none => if p.1 = i then some p.2 else none

/-- Frame predicate: the two states agree on every field except possibly
`currentQuestionIndex`. -/
def sameExceptIndex (a b : QuizState) : Prop :=
  a.questions = b.questions ∧
  a.userAnswers = b.userAnswers ∧
  a.bookmarkedQuestions = b.bookmarkedQuestions ∧
  a.score = b.score ∧
  a.timerRef = b.timerRef ∧
  a.liveIntervals = b.liveIntervals ∧
  a.timeRemaining = b.timeRemaining ∧
  a.startTime = b.startTime ∧
  a.endTime = b.endTime ∧
  a.warning = b.warning

/-- Inductive invariant of a single attempt: the countdown is never
negative; while no `endTime` is recorded (the attempt is in progress)
exactly the one interval created by `startQuiz` is live and at least one
second remains; once `endTime` is recorded the interval has been
cleared. -/
def goodSession (s : QuizState) : Prop :=
  0 ≤ s.timeRemaining ∧
  (s.endTime.isSome = true ∨
    (s.timerRef = true ∧ s.liveIntervals = 1 ∧ 1 ≤ s.timeRemaining)) ∧
  (s.endTime = none ∨ (s.timerRef = false ∧ s.liveIntervals = 0))

@[simp] theorem stopTimer_timeRemaining (s : QuizState) :
    (stopTimer s).timeRemaining = s.timeRemaining := by
  unfold stopTimer; split <;> rfl

@[simp] theorem stopTimer_endTime (s : QuizState) :
    (stopTimer s).endTime = s.endTime := by
  unfold stopTimer; split <;> rfl

@[simp] theorem stopTimer_startTime (s : QuizState) :
    (stopTimer s).startTime = s.startTime := by
  unfold stopTimer; split <;> rfl

@[simp] theorem stopTimer_score (s : QuizState) :
    (stopTimer s).score = s.score := by
  unfold stopTimer; split <;> rfl

@[simp] theorem stopTimer_userAnswers (s : QuizState) :
    (stopTimer s).userAnswers = s.userAnswers := by
  unfold stopTimer; split <;> rfl

@[simp] theorem stopTimer_bookmarks (s : QuizState) :
    (stopTimer s).bookmarkedQuestions = s.bookmarkedQuestions := by
  unfold stopTimer; split <;> rfl

@[simp] theorem stopTimer_warning (s : QuizState) :
    (stopTimer s).warning = s.warning := by
  unfold stopTimer; split <;> rfl

@[simp] theorem stopTimer_index (s : QuizState) :
    (stopTimer s).currentQuestionIndex = s.currentQuestionIndex := by
  unfold stopTimer; split <;> rfl

@[simp] theorem stopTimer_questions (s : QuizState) :
    (stopTimer s).questions = s.questions := by
  unfold stopTimer; split <;> rfl

/-- Folding the overwrite-on-re-answer updates of a selection sequence
over any answer map reads back, at each index, the last choice recorded
for that index, falling back to the original map entry. -/
theorem foldl_setAns (sels : List (Nat × Nat)) (m : Nat → Option Nat) (i : Nat) :
    sels.foldl (fun a p => setAns a p.1 p.2) m i
      = (lastChoice sels i).elim (m i) some := by
  induction sels generalizing m with
  | nil => rfl
  | cons p rest ih =>
    rw [List.foldl_cons, ih]
    have hstep : lastChoice (p :: rest) i
        = match lastChoice rest i with
          | some v => some v
          | none => if p.1 = i then some p.2 else none := rfl
    rw [hstep]
    cases h : lastChoice rest i with
    | some v => rfl
    | none =>
      by_cases hpi : p.1 = i
      · subst hpi
        simp [setAns, Option.elim]
      · have hip : ¬ i = p.1 := fun hh => hpi hh.symm
        simp [setAns, Option.elim, hpi, hip]

/-- The answers map after a sequence of `selectOption` calls is the fold
of the individual overwrites. -/
theorem applySelections_userAnswers (s : QuizState) (sels : List (Nat × Nat)) :
    (applySelections s sels).userAnswers
      = sels.foldl (fun m p => setAns m p.1 p.2) s.userAnswers := by
  induction sels generalizing s with
  | nil => rfl
  | cons p rest ih =>
    show (applySelections (selectOption s p.1 p.2) rest).userAnswers = _
    rw [ih (selectOption s p.1 p.2)]
    rfl

/-- Claim C1: for every question list of length N ≥ 1 and every sequence
of answer selections made during the attempt, the score recorded at
submission equals the number of question indices whose last recorded
choice equals that question's correct-option index — a re-answered
question counts only its final choice, and an index never selected
contributes 0 (its lookup is `none`, which never equals the correct
index). -/
theorem score_counts_last_choices (qs : List Question) (t0 tEnd : Int)
    (sels : List (Nat × Nat)) (_hN : 1 ≤ qs.length) :
    (submitQuiz (applySelections (initSession qs t0) sels) tEnd).score
      = qs.enum.countP (fun p => lastChoice sels p.1 == some p.2.answer) := by
  have hua : (applySelections (initSession qs t0) sels).userAnswers
      = fun i => lastChoice sels i := by
    funext i
    rw [applySelections_userAnswers, foldl_setAns]
    show (lastChoice sels i).elim none some = lastChoice sels i
    cases lastChoice sels i <;> rfl
  have hq : (applySelections (initSession qs t0) sels).questions = qs := by
    have : ∀ s sl, (applySelections s sl).questions = s.questions := by
      intro s sl
      induction sl generalizing s with
      | nil => rfl
      | cons p rest ih => exact ih (selectOption s p.1 p.2)
    exact this _ _
  show (stopTimer _).score = _
  rw [stopTimer_score]
  show calculateScore (applySelections (initSession qs t0) sels).userAnswers
      (applySelections (initSession qs t0) sels).questions = _
  rw [hua, hq]
  rfl

/-- Witness for C1 at the concrete ten-question scenario of the spec:
correct indices `[0,1,2,3,0,1,2,3,0,1]`, the user answers question 9
first with 1 and then overwrites it with 2 (wrong), so the submitted
score counts nine last-choice matches. -/
def c1Questions : List Question :=
  [0, 1, 2, 3, 0, 1, 2, 3, 0, 1].map fun a =>
    { question := "q", options := ["A", "B", "C", "D"], answer := a }

theorem score_counts_last_choices_witness :
    1 ≤ c1Questions.length ∧
    (submitQuiz (applySelections (initSession c1Questions 0)
        [(0, 0), (1, 1), (2, 2), (3, 3), (4, 0), (5, 1), (6, 2), (7, 3),
         (8, 0), (9, 1), (9, 2)]) 77).score
      = c1Questions.enum.countP (fun p =>
          lastChoice [(0, 0), (1, 1), (2, 2), (3, 3), (4, 0), (5, 1),
            (6, 2), (7, 3), (8, 0), (9, 1), (9, 2)] p.1 == some p.2.answer) :=
  ⟨by decide,
   score_counts_last_choices c1Questions 0 77
     [(0, 0), (1, 1), (2, 2), (3, 3), (4, 0), (5, 1), (6, 2), (7, 3),
      (8, 0), (9, 1), (9, 2)] (by decide)⟩

/-- Claim C6: starting from the same session state, the user-initiated
`submitQuiz` and the timer-initiated `autoSubmitQuiz` produce the same
resulting state — in particular the same submitted phase (`endTime`
recorded), the same recomputed `score`, and the same `endedAt`
timestamp: the submission effect is deterministic regardless of its
trigger (their bodies differ only in the DOM-only `hideSubmitModal`
call). -/
theorem submitQuiz_eq_autoSubmitQuiz (s : QuizState) (t : Int) :
    submitQuiz s t = autoSubmitQuiz s t := rfl

/-- Claim C10: the navigation operations `previousQuestion`,
`nextQuestion` and `goToQuestion` modify only `currentQuestionIndex`:
the question list, the answers mapping, the bookmark set, the score, the
timer bookkeeping, `timeRemaining`, the timestamps and the warning flag
are all unchanged by any navigation call. -/
theorem navigation_frame (s : QuizState) (i : Nat) :
    sameExceptIndex (previousQuestion s) s ∧
    sameExceptIndex (nextQuestion s) s ∧
    sameExceptIndex (goToQuestion s i) s := by
  refine ⟨?_, ?_, ?_⟩
  · unfold previousQuestion
    split <;> exact ⟨rfl, rfl, rfl, rfl, rfl, rfl, rfl, rfl, rfl, rfl⟩
  · unfold nextQuestion
    split <;> exact ⟨rfl, rfl, rfl, rfl, rfl, rfl, rfl, rfl, rfl, rfl⟩
  · exact ⟨rfl, rfl, rfl, rfl, rfl, rfl, rfl, rfl, rfl, rfl⟩

/-!
The percentage reported by `showResults` (quiz.js line 320) and
`shareResults` (quiz.js line 377) is
`Math.round((this.score / this.questions.length) * 100)`, evaluated in
IEEE-754 binary64 as JavaScript evaluates all numbers.  The model below
is exact: a double is represented as a dyadic pair `(sig, e)` of value
`sig * 2 ^ e`; each arithmetic operation produces the correctly rounded
(round-to-nearest, ties-to-even, 53 significant bits) double of the
exact result, computed here in integer arithmetic.  All values arising
in this computation lie well inside the binary64 normal range, so
overflow and subnormals need no modelling; `score` and
`questions.length` convert to doubles exactly (integers below 2^53).
-/

/-- `⌊log2 n⌋` (0 at 0), by structural recursion on a fuel argument so
that the kernel can evaluate it inside `decide`. -/
def natLog2Aux : Nat → Nat → Nat
  | 0, _ => 0
  | fuel + 1, n => if 2 ≤ n then natLog2Aux fuel (n / 2) + 1 else 0

def natLog2 (n : Nat) : Nat := natLog2Aux n n

/-- Round-to-nearest, ties-to-even division: the integer nearest to the
exact quotient a/b, an exact half rounding to the even neighbour —
IEEE-754 default rounding onto the integer grid. -/
def rneDiv (a b : Nat) : Nat :=
  if 2 * (a % b) < b then a / b
  else if b < 2 * (a % b) then a / b + 1
  else if (a / b) % 2 = 0 then a / b else a / b + 1

/-- Round-to-nearest, ties-to-even of `(a / b) * 2 ^ k`. -/
def rneDivShift (a b : Nat) (k : Int) : Nat :=
  if 0 ≤ k then rneDiv (a * 2 ^ k.toNat) b else rneDiv a (b * 2 ^ (-k).toNat)

/-- Decides `2 ^ e ≤ a / b` for `a, b ≥ 1` by cross-multiplication. -/
def le2powFrac (e : Int) (a b : Nat) : Bool :=
  if 0 ≤ e then 2 ^ e.toNat * b ≤ a else b ≤ 2 ^ (-e).toNat * a

/-- `⌊log2 (a / b)⌋` for `a, b ≥ 1`: since `a ∈ [2^la, 2^(la+1))` and
`b ∈ [2^lb, 2^(lb+1))`, the answer is `la - lb` or `la - lb - 1`; test
which. -/
def floorLog2Frac (a b : Nat) : Int :=
  if le2powFrac ((natLog2 a : Int) - (natLog2 b : Int)) a b
  then (natLog2 a : Int) - (natLog2 b : Int)
  else (natLog2 a : Int) - (natLog2 b : Int) - 1

/-- Binary64 division `a / b` for `a, b ≥ 1`: the exact quotient, whose
binary point is known from `floorLog2Frac`, is scaled so that its
integer part carries 53 bits and rounded to the nearest integer, ties
to even.  Result is the dyadic value `sig * 2 ^ e` of the correctly
rounded double. -/
def flFrac (a b : Nat) : Nat × Int :=
  (rneDivShift a b (52 - floorLog2Frac a b), floorLog2Frac a b - 52)

/-- Binary64 multiplication of the double `sig * 2 ^ e` by the exactly
representable constant 100: the exact product `(sig * 100) * 2 ^ e` is
rounded back to 53 significant bits, ties to even. -/
def flMul100 (sig : Nat) (e : Int) : Nat × Int :=
  (rneDivShift (sig * 100) 1 (52 - (natLog2 (sig * 100) : Int)),
   e + (natLog2 (sig * 100) : Int) - 52)

/-- ECMAScript `Math.round` on the exact (non-negative) value
`sig * 2 ^ e` of a double: the nearest integer, ties toward positive
infinity, i.e. `⌊value + 1/2⌋` — computed as an integer division. -/
def jsRoundDyadic (sig : Nat) (e : Int) : Nat :=
  if 0 ≤ e then sig * 2 ^ e.toNat
  else (2 * sig + 2 ^ (-e).toNat) / 2 ^ ((-e).toNat + 1)

/-- The percentage computed by `showResults` (quiz.js line 320) and by
`shareResults` (quiz.js line 377):
`Math.round((this.score / this.questions.length) * 100)` in binary64 —
correctly rounded division, correctly rounded multiplication by 100,
then `Math.round` on the exact value of the resulting double.  A score
of 0 divides to exactly +0 and rounds to 0.  Meaningful for `n ≥ 1`
(JavaScript divides by zero to Infinity, outside the claim and this
model). -/
def resultsPercentage (score n : Nat) : ℤ :=
  if score = 0 then 0
  else
    match flFrac score n with
    | (sig1, e1) =>
      match flMul100 sig1 e1 with
      | (sig2, e2) => (jsRoundDyadic sig2 e2 : ℤ)

/-- The spec's formula: `round(100 * score / N)` with standard
round-half-up. -/
def specRoundHalfUp (score n : Nat) : ℤ :=
  ⌊100 * (score : ℚ) / (n : ℚ) + 1 / 2⌋

/-- Counterexample to claim C8 as stated: for a submitted session with
score 23 of N = 40 questions, round-half-up of the exact ratio is
round(57.5) = 58, but the program evaluates (23/40)*100 in binary64:
the double nearest 23/40 is slightly below 0.575, the correctly rounded
product is strictly below 57.5, and Math.round returns 57 — the
reported percentage differs from round(100*s/N). -/
theorem percentage_binary64_counterexample :
    resultsPercentage 23 40 = 57 ∧ specRoundHalfUp 23 40 = 58 := by
  constructor
  · decide
  · show (⌊100 * (23 : ℚ) / 40 + 1 / 2⌋ : ℤ) = 58
    rw [show (100 * (23 : ℚ) / 40 + 1 / 2 : ℚ) = 116 / 2 by norm_num]
    rw [Int.floor_eq_iff]
    norm_num

/-- Claim C8 (amended): the reported percentage is round-half-up
applied to the binary64 evaluation of (score/N)*100 — each operation
correctly rounded, Math.round taking the exact value of the resulting
double — which agrees with round(100*s/N) at the claim's example
points, 7 of 10 reporting exactly 70 and 9 of 10 exactly 90, but not
for every score/questions pair (see the counterexample at 23 of 40). -/
theorem percentage_binary64_examples :
    resultsPercentage 7 10 = 70 ∧ resultsPercentage 9 10 = 90 ∧
    resultsPercentage 7 10 = specRoundHalfUp 7 10 ∧
    resultsPercentage 9 10 = specRoundHalfUp 9 10 := by
  have h7 : specRoundHalfUp 7 10 = 70 := by
    show (⌊100 * (7 : ℚ) / 10 + 1 / 2⌋ : ℤ) = 70
    rw [show (100 * (7 : ℚ) / 10 + 1 / 2 : ℚ) = 141 / 2 by norm_num]
    rw [Int.floor_eq_iff]
    norm_num
  have h9 : specRoundHalfUp 9 10 = 90 := by
    show (⌊100 * (9 : ℚ) / 10 + 1 / 2⌋ : ℤ) = 90
    rw [show (100 * (9 : ℚ) / 10 + 1 / 2 : ℚ) = 181 / 2 by norm_num]
    rw [Int.floor_eq_iff]
    norm_num
  refine ⟨by decide, by decide, ?_, ?_⟩
  · rw [h7]; decide
  · rw [h9]; decide

/-- Counterexample to claim C9 as stated: a question source that is
reachable and returns well-formed JSON that parses to an empty array is
assigned verbatim, so after `loadQuestions` completes the question list
has length 0, not ≥ 1 — the placeholder is substituted only when the
fetch or the JSON parse throws. -/
theorem load_empty_list_gives_zero_questions :
    (loadQuestions (some [])).length = 0 := rfl

/-- Claim C9 (amended): when the fetch or JSON parse fails,
`loadQuestions` substitutes the single-element placeholder list, so the
question list is non-empty and the session stays usable; when the source
responds successfully the parsed list is used verbatim with no
minimum-length check, so the question list is non-empty exactly when the
source's list is. -/
theorem load_fallback_nonempty (qs : List Question) (h : 1 ≤ qs.length) :
    loadQuestions none = [placeholderQuestion] ∧
    (loadQuestions none).length = 1 ∧
    loadQuestions (some qs) = qs ∧
    1 ≤ (loadQuestions (some qs)).length := ⟨rfl, rfl, rfl, h⟩

theorem load_fallback_nonempty_witness :
    1 ≤ [placeholderQuestion].length ∧
    loadQuestions none = [placeholderQuestion] ∧
    (loadQuestions none).length = 1 ∧
    loadQuestions (some [placeholderQuestion]) = [placeholderQuestion] ∧
    1 ≤ (loadQuestions (some [placeholderQuestion])).length :=
  ⟨by decide, load_fallback_nonempty [placeholderQuestion] (by decide)⟩

/-- An in-progress single-question session, used as the concrete state
for the C5 counterexample and witness. -/
def c5State : QuizState :=
  startQuiz { mkQuizApp with questions := [placeholderQuestion] } 0

/-- Counterexample to claim C5 as stated: on an in-progress session with
N = 1 questions, `goToQuestion 5` is not rejected and does not leave the
state unchanged — the method body has no bounds check, so the
out-of-range index is stored and `currentQuestionIndex` leaves
[0, N-1]. -/
theorem goTo_out_of_range_changes_state :
    (goToQuestion c5State 5).currentQuestionIndex = 5 ∧
    ¬ (goToQuestion c5State 5).currentQuestionIndex < c5State.questions.length := by
  exact ⟨rfl, by decide⟩

/-- Claim C5 (amended): `goToQuestion` performs no bounds check — it
unconditionally stores the given index in `currentQuestionIndex`,
leaving every other field unchanged; only when the index is within
[0, N-1] (which every in-app caller, the navigator grid, guarantees)
does `currentQuestionIndex` remain within [0, N-1]. -/
theorem goTo_stores_index_unchecked (s : QuizState) (i : Nat) :
    (goToQuestion s i).currentQuestionIndex = i ∧
    sameExceptIndex (goToQuestion s i) s ∧
    (i < s.questions.length →
      (goToQuestion s i).currentQuestionIndex < s.questions.length) := by
  exact ⟨rfl, ⟨rfl, rfl, rfl, rfl, rfl, rfl, rfl, rfl, rfl, rfl⟩, fun h => h⟩

theorem goTo_stores_index_unchecked_witness :
    0 < c5State.questions.length ∧
    (goToQuestion c5State 0).currentQuestionIndex = 0 ∧
    (goToQuestion c5State 0).currentQuestionIndex < c5State.questions.length :=
  ⟨by decide, (goTo_stores_index_unchecked c5State 0).1,
    (goTo_stores_index_unchecked c5State 0).2.2 (by decide)⟩

/-- A submitted session: one question, no answers, submitted at time 10
with a consistent recomputed score. -/
def c3State : QuizState :=
  { mkQuizApp with questions := [placeholderQuestion],
                   startTime := some 0, endTime := some 10 }

/-- Counterexample to claim C3 as stated: invoking `submitQuiz` again on
a session already submitted at time 10, now at time 20, is not a no-op —
`endTime = new Date()` runs unconditionally (there is no phase guard in
quiz.js lines 292-305), so the `endedAt` field changes. -/
theorem second_submit_changes_endTime :
    (submitQuiz c3State 20).endTime ≠ c3State.endTime := by decide

/-- Claim C3 (amended): invoking `submitQuiz` or `autoSubmitQuiz` on an
already-submitted session whose score is consistent with its answers
leaves the phase submitted and `answers`, `bookmarks`, `score`,
`remainingSeconds`, `startedAt` and `currentQuestionIndex` unchanged,
but re-stamps `endedAt` with the time of the new call (so the call is a
no-op only when it happens at the original submission timestamp); both
entry points have this same effect. -/
theorem second_submit_effect (s : QuizState) (t : Int)
    (_h : s.endTime.isSome = true)
    (hs : s.score = calculateScore s.userAnswers s.questions) :
    (submitQuiz s t).endTime = some t ∧
    (submitQuiz s t).endTime.isSome = true ∧
    (submitQuiz s t).score = s.score ∧
    (submitQuiz s t).timeRemaining = s.timeRemaining ∧
    (submitQuiz s t).currentQuestionIndex = s.currentQuestionIndex ∧
    (submitQuiz s t).userAnswers = s.userAnswers ∧
    (submitQuiz s t).bookmarkedQuestions = s.bookmarkedQuestions ∧
    (submitQuiz s t).startTime = s.startTime ∧
    autoSubmitQuiz s t = submitQuiz s t := by
  refine ⟨by simp [submitQuiz], by simp [submitQuiz], ?_, by simp [submitQuiz],
    by simp [submitQuiz], by simp [submitQuiz], by simp [submitQuiz],
    by simp [submitQuiz], rfl⟩
  show (stopTimer _).score = s.score
  rw [stopTimer_score]
  exact hs.symm

theorem second_submit_effect_witness :
    c3State.endTime.isSome = true ∧
    c3State.score = calculateScore c3State.userAnswers c3State.questions ∧
    ((submitQuiz c3State 20).endTime = some 20 ∧
     (submitQuiz c3State 20).endTime.isSome = true ∧
     (submitQuiz c3State 20).score = c3State.score ∧
     (submitQuiz c3State 20).timeRemaining = c3State.timeRemaining ∧
     (submitQuiz c3State 20).currentQuestionIndex = c3State.currentQuestionIndex ∧
     (submitQuiz c3State 20).userAnswers = c3State.userAnswers ∧
     (submitQuiz c3State 20).bookmarkedQuestions = c3State.bookmarkedQuestions ∧
     (submitQuiz c3State 20).startTime = c3State.startTime ∧
     autoSubmitQuiz c3State 20 = submitQuiz c3State 20) :=
  ⟨by decide, by decide, second_submit_effect c3State 20 (by decide) (by decide)⟩

/-- An in-progress session whose interval callback is still scheduled —
the state from which the restart button's handler would run if invoked
before submission. -/
def c4State : QuizState :=
  startQuiz { mkQuizApp with questions := [placeholderQuestion] } 0

/-- Claim C4 is a code bug: `restartQuiz` (quiz.js lines 365-374) resets
every session field but never calls `stopTimer`, so an interval running
at restart time keeps firing; the following `startQuiz` schedules a
second interval (overwriting, not clearing, the old handle).  Evaluated
at the failing input — restart from an in-progress session with its
timer live, then start — the new attempt has two live tick sources, and
one wall-clock second (both callbacks firing once) decrements
`timeRemaining` by 2, from 5400 to 5398, contradicting both the claim
and the spec's requirement that restart fully retires the previous
timer. -/
theorem restart_leaves_timer_running :
    (restartQuiz c4State).liveIntervals = 1 ∧
    (startQuiz (restartQuiz c4State) 1).liveIntervals = 2 ∧
    (startQuiz (restartQuiz c4State) 1).timeRemaining = 90 * 60 ∧
    (applyEvent (applyEvent (startQuiz (restartQuiz c4State) 1)
        (Event.tick 2)) (Event.tick 2)).timeRemaining = 5398 := by
  refine ⟨rfl, rfl, rfl, ?_⟩
  decide

/-- Projection lemmas for the two submission operations. -/
@[simp] theorem submitQuiz_timeRemaining (s : QuizState) (t : Int) :
    (submitQuiz s t).timeRemaining = s.timeRemaining := by
  unfold submitQuiz stopTimer; split <;> rfl

@[simp] theorem submitQuiz_endTime (s : QuizState) (t : Int) :
    (submitQuiz s t).endTime = some t := by
  unfold submitQuiz stopTimer; split <;> rfl

@[simp] theorem autoSubmitQuiz_timeRemaining (s : QuizState) (t : Int) :
    (autoSubmitQuiz s t).timeRemaining = s.timeRemaining := by
  unfold autoSubmitQuiz stopTimer; split <;> rfl

@[simp] theorem autoSubmitQuiz_endTime (s : QuizState) (t : Int) :
    (autoSubmitQuiz s t).endTime = some t := by
  unfold autoSubmitQuiz stopTimer; split <;> rfl

@[simp] theorem autoSubmitQuiz_warning (s : QuizState) (t : Int) :
    (autoSubmitQuiz s t).warning = s.warning := by
  unfold autoSubmitQuiz stopTimer; split <;> rfl

instance (s : QuizState) : Decidable (goodSession s) := by
  unfold goodSession; infer_instance

/-- The single-attempt invariant is preserved by every event. -/
theorem good_step (s : QuizState) (e : Event) (hg : goodSession s) :
    goodSession (applyEvent s e) := by
  obtain ⟨h0, h1, h2⟩ := hg
  cases e with
  | tick t =>
    show goodSession (if s.liveIntervals = 0 then s else tickBody s t)
    by_cases hz : s.liveIntervals = 0
    · rw [if_pos hz]; exact ⟨h0, h1, h2⟩
    · rw [if_neg hz]
      have hend : s.endTime = none := by
        rcases h2 with h | ⟨href, hlive⟩
        · exact h
        · exact absurd hlive hz
      have hR : s.timerRef = true ∧ s.liveIntervals = 1 ∧ 1 ≤ s.timeRemaining := by
        rcases h1 with h | h
        · rw [hend] at h; simp at h
        · exact h
      obtain ⟨href, hlive, hrem⟩ := hR
      unfold tickBody
      by_cases hr : s.timeRemaining - 1 ≤ 0
      · rw [if_pos hr]
        unfold autoSubmitQuiz stopTimer
        rw [if_pos (show _ = true from href)]
        refine ⟨?_, Or.inl rfl, Or.inr ⟨rfl, ?_⟩⟩
        · show (0 : Int) ≤ s.timeRemaining - 1
          omega
        · show s.liveIntervals - 1 = 0
          omega
      · rw [if_neg hr]
        refine ⟨?_, Or.inr ⟨href, hlive, ?_⟩, Or.inl hend⟩
        · show (0 : Int) ≤ s.timeRemaining - 1
          omega
        · show (1 : Int) ≤ s.timeRemaining - 1
          omega
  | select k v => exact ⟨h0, h1, h2⟩
  | prev =>
    show goodSession (previousQuestion s)
    unfold previousQuestion
    split <;> exact ⟨h0, h1, h2⟩
  | next =>
    show goodSession (nextQuestion s)
    unfold nextQuestion
    split <;> exact ⟨h0, h1, h2⟩
  | goTo i => exact ⟨h0, h1, h2⟩
  | mark =>
    show goodSession (toggleBookmark s)
    unfold toggleBookmark
    split <;> exact ⟨h0, h1, h2⟩
  | subm t =>
    show goodSession (submitQuiz s t)
    unfold submitQuiz stopTimer
    by_cases href : s.timerRef = true
    · have hend : s.endTime = none := by
        rcases h2 with h | ⟨href2, _⟩
        · exact h
        · rw [href] at href2; cases href2
      have hlive : s.liveIntervals = 1 := by
        rcases h1 with h | h
        · rw [hend] at h; simp at h
        · exact h.2.1
      rw [if_pos (show _ = true from href)]
      refine ⟨h0, Or.inl rfl, Or.inr ⟨rfl, ?_⟩⟩
      show s.liveIntervals - 1 = 0
      omega
    · have hends : s.endTime.isSome = true := by
        rcases h1 with h | h
        · exact h
        · exact absurd h.1 href
      have hlive : s.liveIntervals = 0 := by
        rcases h2 with h | h
        · rw [h] at hends; cases hends
        · exact h.2
      rw [if_neg href]
      have hrf : s.timerRef = false := by
        simp only [Bool.not_eq_true] at href; exact href
      exact ⟨h0, Or.inl rfl, Or.inr ⟨hrf, hlive⟩⟩
  | autoSub t =>
    show goodSession (autoSubmitQuiz s t)
    unfold autoSubmitQuiz stopTimer
    by_cases href : s.timerRef = true
    · have hend : s.endTime = none := by
        rcases h2 with h | ⟨href2, _⟩
        · exact h
        · rw [href] at href2; cases href2
      have hlive : s.liveIntervals = 1 := by
        rcases h1 with h | h
        · rw [hend] at h; simp at h
        · exact h.2.1
      rw [if_pos (show _ = true from href)]
      refine ⟨h0, Or.inl rfl, Or.inr ⟨rfl, ?_⟩⟩
      show s.liveIntervals - 1 = 0
      omega
    · have hends : s.endTime.isSome = true := by
        rcases h1 with h | h
        · exact h
        · exact absurd h.1 href
      have hlive : s.liveIntervals = 0 := by
        rcases h2 with h | h
        · rw [h] at hends; cases hends
        · exact h.2
      rw [if_neg href]
      have hrf : s.timerRef = false := by
        simp only [Bool.not_eq_true] at href; exact href
      exact ⟨h0, Or.inl rfl, Or.inr ⟨hrf, hlive⟩⟩

/-- No event ever increases `timeRemaining`. -/
theorem step_time_mono (s : QuizState) (e : Event) :
    (applyEvent s e).timeRemaining ≤ s.timeRemaining := by
  cases e with
  | tick t =>
    show (if s.liveIntervals = 0 then s else tickBody s t).timeRemaining ≤ _
    split
    · exact le_refl _
    · unfold tickBody
      split
      · rw [autoSubmitQuiz_timeRemaining]
        show s.timeRemaining - 1 ≤ s.timeRemaining
        omega
      · show s.timeRemaining - 1 ≤ s.timeRemaining
        omega
  | select k v => exact le_refl _
  | prev =>
    show (previousQuestion s).timeRemaining ≤ _
    unfold previousQuestion; split <;> exact le_refl _
  | next =>
    show (nextQuestion s).timeRemaining ≤ _
    unfold nextQuestion; split <;> exact le_refl _
  | goTo i => exact le_refl _
  | mark =>
    show (toggleBookmark s).timeRemaining ≤ _
    unfold toggleBookmark; split <;> exact le_refl _
  | subm t =>
    show (submitQuiz s t).timeRemaining ≤ _
    rw [submitQuiz_timeRemaining]
  | autoSub t =>
    show (autoSubmitQuiz s t).timeRemaining ≤ _
    rw [autoSubmitQuiz_timeRemaining]

/-- Once the attempt is submitted, no event changes `timeRemaining`:
the invariant guarantees the interval was cleared, so ticks no longer
fire, and no other operation writes the field. -/
theorem step_time_frozen (s : QuizState) (e : Event) (hg : goodSession s)
    (hsub : s.endTime.isSome = true) :
    (applyEvent s e).timeRemaining = s.timeRemaining := by
  obtain ⟨h0, h1, h2⟩ := hg
  have hlive : s.liveIntervals = 0 := by
    rcases h2 with h | h
    · rw [h] at hsub; cases hsub
    · exact h.2
  cases e with
  | tick t =>
    show (if s.liveIntervals = 0 then s else tickBody s t).timeRemaining = _
    rw [if_pos hlive]
  | select k v => rfl
  | prev =>
    show (previousQuestion s).timeRemaining = _
    unfold previousQuestion; split <;> rfl
  | next =>
    show (nextQuestion s).timeRemaining = _
    unfold nextQuestion; split <;> rfl
  | goTo i => rfl
  | mark =>
    show (toggleBookmark s).timeRemaining = _
    unfold toggleBookmark; split <;> rfl
  | subm t => exact submitQuiz_timeRemaining s t
  | autoSub t => exact autoSubmitQuiz_timeRemaining s t

/-- When a tick turns an in-progress attempt into a submitted one, the
countdown stands at exactly 0 at that moment: the tick that reaches 0
triggers `autoSubmitQuiz` instead of letting the counter go below 0. -/
theorem tick_submits_at_zero (s : QuizState) (t : Int) (hg : goodSession s)
    (hip : s.endTime = none)
    (hsub : (applyEvent s (Event.tick t)).endTime.isSome = true) :
    (applyEvent s (Event.tick t)).timeRemaining = 0 := by
  obtain ⟨h0, h1, h2⟩ := hg
  have happ : applyEvent s (Event.tick t)
      = if s.liveIntervals = 0 then s else tickBody s t := rfl
  by_cases hz : s.liveIntervals = 0
  · rw [happ, if_pos hz] at hsub
    rw [hip] at hsub; cases hsub
  · have hrem : 1 ≤ s.timeRemaining := by
      rcases h1 with h | h
      · rw [hip] at h; simp at h
      · exact h.2.2
    rw [happ, if_neg hz]
    rw [happ, if_neg hz] at hsub
    unfold tickBody at hsub ⊢
    by_cases hr : s.timeRemaining - 1 ≤ 0
    · rw [if_pos hr]
      rw [autoSubmitQuiz_timeRemaining]
      show s.timeRemaining - 1 = 0
      omega
    · rw [if_neg hr] at hsub
      have hcontra : s.endTime.isSome = true := hsub
      rw [hip] at hcontra; cases hcontra

/-- Claim C2: the attempt that `startQuiz` begins satisfies the timing
invariant, the invariant is preserved by every event, `remainingSeconds`
is never negative and never increases under any event; once the session
is no longer in progress (`endTime` recorded, interval cleared) it is
frozen; and on the timer-driven submission path — a tick that records
`endTime` — it equals exactly 0 at the moment the attempt becomes
submitted. -/
theorem timer_invariants (qs : List Question) (t0 : Int) (s : QuizState)
    (e : Event) (t : Int) (hg : goodSession s) :
    goodSession (initSession qs t0) ∧
    goodSession (applyEvent s e) ∧
    0 ≤ s.timeRemaining ∧
    (applyEvent s e).timeRemaining ≤ s.timeRemaining ∧
    (s.endTime.isSome = true →
      (applyEvent s e).timeRemaining = s.timeRemaining) ∧
    (s.endTime = none →
      (applyEvent s (Event.tick t)).endTime.isSome = true →
      (applyEvent s (Event.tick t)).timeRemaining = 0) := by
  refine ⟨?_, good_step s e hg, hg.1, step_time_mono s e,
    fun hsub => step_time_frozen s e hg hsub,
    fun hip hsub => tick_submits_at_zero s t hg hip hsub⟩
  exact ⟨by norm_num [initSession, startQuiz, startTimer, mkQuizApp],
    Or.inr ⟨rfl, rfl, by norm_num [initSession, startQuiz, startTimer, mkQuizApp]⟩,
    Or.inl rfl⟩

/-- A submitted, timer-cleared session with 42 seconds left on the
frozen display, used in the C2 witness. -/
def c2SubState : QuizState :=
  { mkQuizApp with questions := [placeholderQuestion], startTime := some 0,
                   endTime := some 9, timeRemaining := 42 }

/-- An in-progress session one second from exhaustion, used in the C2
witness. -/
def c2EdgeState : QuizState :=
  { mkQuizApp with questions := [placeholderQuestion], startTime := some 0,
                   timerRef := true, liveIntervals := 1, timeRemaining := 1 }

theorem timer_invariants_witness :
    goodSession c2SubState ∧
    (applyEvent c2SubState (Event.tick 5)).timeRemaining = c2SubState.timeRemaining ∧
    goodSession c2EdgeState ∧
    (applyEvent c2EdgeState (Event.tick 5)).endTime.isSome = true ∧
    (applyEvent c2EdgeState (Event.tick 5)).timeRemaining = 0 :=
  ⟨by decide,
   (timer_invariants [] 0 c2SubState (Event.tick 5) 5 (by decide)).2.2.2.2.1 (by decide),
   by decide,
   by decide,
   (timer_invariants [] 0 c2EdgeState (Event.tick 5) 5 (by decide)).2.2.2.2.2
     (by decide) (by decide)⟩

@[simp] theorem submitQuiz_warning (s : QuizState) (t : Int) :
    (submitQuiz s t).warning = s.warning := by
  unfold submitQuiz stopTimer; split <;> rfl

/-- The low-time warning relation: the `warning` class is present
exactly when the countdown is at or below 300 seconds.  This is an
inductive invariant of a running attempt. -/
def warInv (s : QuizState) : Prop :=
  s.warning = true ↔ s.timeRemaining ≤ 300

theorem warInv_step (s : QuizState) (e : Event) (h : warInv s) :
    warInv (applyEvent s e) := by
  cases e with
  | tick t =>
    show warInv (if s.liveIntervals = 0 then s else tickBody s t)
    by_cases hz : s.liveIntervals = 0
    · rw [if_pos hz]; exact h
    · rw [if_neg hz]
      unfold tickBody
      have hgoal : ((if s.timeRemaining - 1 ≤ 300 ∧ 0 < s.timeRemaining - 1
            then true else s.warning) = true ↔ s.timeRemaining - 1 ≤ 300) := by
        by_cases h300 : s.timeRemaining - 1 ≤ 300
        · by_cases hpos : 0 < s.timeRemaining - 1
          · rw [if_pos ⟨h300, hpos⟩]
            exact ⟨fun _ => h300, fun _ => rfl⟩
          · rw [if_neg (fun hc => hpos hc.2)]
            exact ⟨fun _ => h300, fun _ => h.mpr (by omega)⟩
        · rw [if_neg (fun hc => h300 hc.1)]
          exact ⟨fun hw => absurd (h.mp hw) (by omega), fun hr => absurd hr h300⟩
      split
      · show warInv (autoSubmitQuiz _ t)
        unfold warInv
        rw [autoSubmitQuiz_warning, autoSubmitQuiz_timeRemaining]
        exact hgoal
      · exact hgoal
  | select k v => exact h
  | prev =>
    show warInv (previousQuestion s)
    unfold previousQuestion; split <;> exact h
  | next =>
    show warInv (nextQuestion s)
    unfold nextQuestion; split <;> exact h
  | goTo i => exact h
  | mark =>
    show warInv (toggleBookmark s)
    unfold toggleBookmark; split <;> exact h
  | subm t =>
    show warInv (submitQuiz s t)
    unfold warInv
    rw [submitQuiz_warning, submitQuiz_timeRemaining]
    exact h
  | autoSub t =>
    show warInv (autoSubmitQuiz s t)
    unfold warInv
    rw [autoSubmitQuiz_warning, autoSubmitQuiz_timeRemaining]
    exact h

/-- No event ever removes the warning class: nothing in quiz.js calls
`classList.remove('warning')`. -/
theorem warning_step_mono (s : QuizState) (e : Event) :
    s.warning ≤ (applyEvent s e).warning := by
  cases e with
  | tick t =>
    show s.warning ≤ (if s.liveIntervals = 0 then s else tickBody s t).warning
    by_cases hz : s.liveIntervals = 0
    · rw [if_pos hz]
    · rw [if_neg hz]
      unfold tickBody
      split
      · rw [autoSubmitQuiz_warning]
        show s.warning ≤ if s.timeRemaining - 1 ≤ 300 ∧ 0 < s.timeRemaining - 1
            then true else s.warning
        split
        · exact Bool.le_true _
        · exact le_refl _
      · show s.warning ≤ if s.timeRemaining - 1 ≤ 300 ∧ 0 < s.timeRemaining - 1
            then true else s.warning
        split
        · exact Bool.le_true _
        · exact le_refl _
  | select k v => exact le_refl _
  | prev =>
    show s.warning ≤ (previousQuestion s).warning
    unfold previousQuestion; split <;> exact le_refl _
  | next =>
    show s.warning ≤ (nextQuestion s).warning
    unfold nextQuestion; split <;> exact le_refl _
  | goTo i => exact le_refl _
  | mark =>
    show s.warning ≤ (toggleBookmark s).warning
    unfold toggleBookmark; split <;> exact le_refl _
  | subm t =>
    show s.warning ≤ (submitQuiz s t).warning
    rw [submitQuiz_warning]
  | autoSub t =>
    show s.warning ≤ (autoSubmitQuiz s t).warning
    rw [autoSubmitQuiz_warning]

/-- Claim C7: in every state reachable within a single attempt the
low-time warning flag is present exactly when `remainingSeconds` is at
or below 300 — so it is unset while the countdown has never been at or
below 300 (the countdown starts at 5400 and only ever decreases), it
becomes set at the tick where the countdown reaches 300, and it is still
set at 1 and at 0 — and no event ever removes it within the session: it
is a one-way flag. -/
theorem warning_flag_one_way (qs : List Question) (t0 : Int)
    (evts : List Event) (e : Event) :
    ((runSession (initSession qs t0) evts).warning = true ↔
      (runSession (initSession qs t0) evts).timeRemaining ≤ 300) ∧
    (runSession (initSession qs t0) evts).warning ≤
      (applyEvent (runSession (initSession qs t0) evts) e).warning := by
  constructor
  · have hrun : ∀ (l : List Event) (s : QuizState), warInv s → warInv (runSession s l) := by
      intro l
      induction l with
      | nil => intro s h; exact h
      | cons a rest ih =>
        intro s h
        exact ih (applyEvent s a) (warInv_step s a h)
    have hinit : warInv (initSession qs t0) := by
      show false = true ↔ (90 * 60 : Int) ≤ 300
      decide
    exact hrun evts (initSession qs t0) hinit
  · exact warning_step_mono (runSession (initSession qs t0) evts) e

theorem warning_flag_one_way_witness :
    ((runSession (initSession [placeholderQuestion] 0) []).warning = true ↔
      (runSession (initSession [placeholderQuestion] 0) []).timeRemaining ≤ 300) ∧
    (runSession (initSession [placeholderQuestion] 0) []).warning ≤
      (applyEvent (runSession (initSession [placeholderQuestion] 0) [])
        (Event.tick 1)).warning :=
  warning_flag_one_way [placeholderQuestion] 0 [] (Event.tick 1)

end Abhyasam
